import Mathlib

/-!
Verification of the Steel Production Planning notebook
(`aa2022/notebooks/Steel_Planning.ipynb`).

The notebook builds, with Pyomo, the linear program

  max  pB*xB + pC*xC
  s.t. 1/rB*xB + 1/rC*xC ≤ T
       0 ≤ xB ≤ dB, 0 ≤ xC ≤ dC

with the fixed data pB=25, pC=30, rB=200, rC=140, dB=6000, dC=4000, T=40,
hands it to the GLPK solver, prints the solver-status records and then the
objective value and the two variable values.

The development has two parts:
* an exact-arithmetic (ℚ) embedding of the linear program itself — the
  data, the objective `cost`, the constraint `cnstr1`, the feasible set
  and the optimality predicate, parametrised by the data the claims vary
  (the demand bound `dB` and the capacity `T`);
* a small syntactic embedding of the notebook's script — the statements
  of the installation cell and of the complete script of section 3.5, and
  the trace of actions of the reporting phase as a function of the solver
  result — for the claims about control flow and about status handling.
-/

namespace SteelPlanning

/-! ## Data of the instance (cell 3.2 / complete script) -/

/-- Data value `pB = 25`, price of a ton of bands. -/
def pB : ℚ := 25

/-- Data value `pC = 30`, price of a ton of coils. -/
def pC : ℚ := 30

/-- Data value `rB = 200`, production rate for bands. -/
def rB : ℚ := 200

/-- Data value `rC = 140`, production rate for coils. -/
def rC : ℚ := 140

/-- Data value `dB = 6000`, demand upper bound for bands. -/
def dB : ℚ := 6000

/-- Data value `dC = 4000`, demand upper bound for coils. -/
def dC : ℚ := 4000

/-- Data value `T = 40`, available production time. -/
def T : ℚ := 40

/-! ## The model (cells 3.3 / complete script)

`model.xB = Var(domain=NonNegativeReals, bounds=(0,dB))` and likewise for
`xC` declare `0 ≤ xB ≤ dB` and `0 ≤ xC ≤ dC`;
`model.cost = Objective(expr = pB*model.xB + pC*model.xC, sense=maximize)`;
`model.cnstr1 = Constraint(expr = 1/rB*model.xB + 1/rC*model.xC <= T)`.
The demand bound of bands and the capacity are parameters (`db`, `t`)
where a claim varies them; the notebook's run instantiates them at
`dB` and `T`. -/

/-- The objective `pB*xB + pC*xC` of `model.cost`. -/
def cost (xB xC : ℚ) : ℚ := pB * xB + pC * xC

/-- The constraint `1/rB*xB + 1/rC*xC <= T` of `model.cnstr1`, with the
capacity as a parameter. -/
def cnstr1 (t xB xC : ℚ) : Prop := 1 / rB * xB + 1 / rC * xC ≤ t

instance (t xB xC : ℚ) : Decidable (cnstr1 t xB xC) := by
  unfold cnstr1; infer_instance

/-- The feasible set of the model: the bounds of `model.xB` and
`model.xC` and the constraint `model.cnstr1`. -/
def Feasible (db dc t xB xC : ℚ) : Prop :=
  0 ≤ xB ∧ xB ≤ db ∧ 0 ≤ xC ∧ xC ≤ dc ∧ cnstr1 t xB xC

instance (db dc t xB xC : ℚ) : Decidable (Feasible db dc t xB xC) := by
  unfold Feasible; infer_instance

/-- Predicate: `(xB, xC)` solves the linear program: it is feasible and its
objective value dominates every feasible point's. -/
def IsOptimal (db dc t xB xC : ℚ) : Prop :=
  Feasible db dc t xB xC ∧ ∀ x y, Feasible db dc t x y → cost x y ≤ cost xB xC

/-- The constraint of `model.cnstr1` exactly as coded,
`1/rB*xB + 1/rC*xC <= T` with `rB = 200`, `rC = 140`, `T = 40`, read
over the reals (Pyomo's `NonNegativeReals` domain). -/
def cnstrCodedReal (x y : ℝ) : Prop := 1 / 200 * x + 1 / 140 * y ≤ 40

/-- Modelled from the spec: the spec writes the capacity constraint as
`xB/rB + xC/rC ≤ T`; with the same data, over the reals. -/
def cnstrSpecFormReal (x y : ℝ) : Prop := x / 200 + y / 140 ≤ 40

/-! ## The model as a Pyomo object (for the structural claim)

The four declaration statements of the script attach to the `ConcreteModel`
object exactly two `Var` components, one `Objective` and one `Constraint`.
The components are recorded as data so the structure of the built model can
be checked by evaluation. -/

/-- Domain of a Pyomo `Var`; the script only uses `NonNegativeReals`,
which is a continuous domain. -/
inductive Domain where
  | nonNegativeReals
deriving DecidableEq

/-- Whether a Pyomo variable domain is continuous (as opposed to integer
or boolean). -/
def Domain.continuous : Domain → Bool
  | .nonNegativeReals => true

/-- Sense of a Pyomo `Objective`. -/
inductive Sense where
  | minimize
  | maximize
deriving DecidableEq

/-- Relation of a Pyomo `Constraint` expression. -/
inductive Rel where
  | le
  | ge
  | equal
deriving DecidableEq

/-- A linear expression `coefB * xB + coefC * xC` in the two decision
variables of the script. -/
structure LinExpr where
  coefB : ℚ
  coefC : ℚ
deriving DecidableEq

/-- A `Var(domain=..., bounds=(lb,ub))` component. -/
structure VarComp where
  varName : String
  domain : Domain
  lb : ℚ
  ub : ℚ
deriving DecidableEq

/-- An `Objective(expr=..., sense=...)` component. -/
structure ObjComp where
  expr : LinExpr
  sense : Sense
deriving DecidableEq

/-- A `Constraint(expr = lhs rel rhs)` component. -/
structure ConstrComp where
  lhs : LinExpr
  rel : Rel
  rhs : ℚ
deriving DecidableEq

/-- The components attached to a `ConcreteModel` object. -/
structure PyomoModel where
  vars : List VarComp
  objectives : List ObjComp
  constraints : List ConstrComp

/-- Component added by `model.xB = Var(domain=NonNegativeReals, bounds=(0,dB))`. -/
def xBComp : VarComp := ⟨"xB", Domain.nonNegativeReals, 0, dB⟩

/-- Component added by `model.xC = Var(domain=NonNegativeReals, bounds=(0,dC))`. -/
def xCComp : VarComp := ⟨"xC", Domain.nonNegativeReals, 0, dC⟩

/-- Component added by
`model.cost = Objective(expr = pB*model.xB + pC*model.xC, sense = maximize)`. -/
def costComp : ObjComp := ⟨⟨pB, pC⟩, Sense.maximize⟩

/-- Component added by
`model.cnstr1 = Constraint(expr = 1/rB*model.xB + 1/rC*model.xC <= T)`. -/
def cnstr1Comp : ConstrComp := ⟨⟨1 / rB, 1 / rC⟩, Rel.le, T⟩

/-- The model built by the script: the `ConcreteModel` after the four
declaration statements (and nothing else) have run. -/
def builtModel : PyomoModel :=
  { vars := [xBComp, xCComp]
    objectives := [costComp]
    constraints := [cnstr1Comp] }

/-! ## The script's statements (installation cell and complete script)

A small statement syntax, just rich enough to record the control flow of
the notebook's code cells: straight-line statements, the `for` loop of the
status report, the `if`/`else` and `try`/`except` of the installation
cell. -/

/-- One Python statement of a notebook cell. -/
inductive Stmt where
  | moduleLoad (modName : String)
  | modelInit
  | dataAssign (varName : String) (value : ℚ)
  | varDeclStmt (v : VarComp)
  | objectiveStmt (o : ObjComp)
  | constraintStmt (c : ConstrComp)
  | solveCall (solverName : String)
  | forLoop (body : List Stmt)
  | ifElse (thenBr elseBr : List Stmt)
  | tryExcept (tryBr exceptBr : List Stmt)
  | printCall (what : String)
  | shellCall (cmd : String)
  | assertCall
  | passStmt

mutual

/-- Does a statement contain a loop (also inside a nested block)? -/
def stmtHasLoop : Stmt → Bool
  | .forLoop _ => true
  | .ifElse a b => listHasLoop a || listHasLoop b
  | .tryExcept a b => listHasLoop a || listHasLoop b
  | _ => false

/-- Does any statement of the list contain a loop? -/
def listHasLoop : List Stmt → Bool
  | [] => false
  | s :: rest => stmtHasLoop s || listHasLoop rest

end

mutual

/-- Does a statement contain a branch (`if`/`else` or `try`/`except`),
also inside a nested block? -/
def stmtHasBranch : Stmt → Bool
  | .ifElse _ _ => true
  | .tryExcept _ _ => true
  | .forLoop b => listHasBranch b
  | _ => false

/-- Does any statement of the list contain a branch? -/
def listHasBranch : List Stmt → Bool
  | [] => false
  | s :: rest => stmtHasBranch s || listHasBranch rest

end

mutual

/-- How many solver invocations a statement contains, nested blocks
included. -/
def stmtSolveCount : Stmt → Nat
  | .solveCall _ => 1
  | .forLoop b => listSolveCount b
  | .ifElse a b => listSolveCount a + listSolveCount b
  | .tryExcept a b => listSolveCount a + listSolveCount b
  | _ => 0

/-- How many solver invocations a statement list contains. -/
def listSolveCount : List Stmt → Nat
  | [] => 0
  | s :: rest => stmtSolveCount s + listSolveCount rest

end

mutual

/-- Does a statement touch state beyond the script's own variables?
Assignments, the model-component declarations, prints and the solve
delegation only bind names of the run or write to the console; the only
statements of the notebook that mutate anything beyond them are the
shell installation commands (`pip` / `apt-get` / `conda`). -/
def stmtTouchesExternalState : Stmt → Bool
  | .shellCall _ => true
  | .forLoop b => listTouchesExternalState b
  | .ifElse a b => listTouchesExternalState a || listTouchesExternalState b
  | .tryExcept a b => listTouchesExternalState a || listTouchesExternalState b
  | _ => false

/-- Does any statement of the list touch state beyond the script's own
variables? -/
def listTouchesExternalState : List Stmt → Bool
  | [] => false
  | s :: rest => stmtTouchesExternalState s || listTouchesExternalState rest

end

/-- The installation cell of section 3.1:
`import shutil` / `import sys` / `import os.path`, then
`if not shutil.which("pyomo"): !pip install -q pyomo; assert(...)`, then
`if not (shutil.which("glpk") or os.path.isfile("glpk")):` with a nested
`if "google.colab" in sys.modules: !apt-get ... else: try: !conda ...
except: pass`. -/
def installCell : List Stmt :=
  [ Stmt.moduleLoad "shutil"
  , Stmt.moduleLoad "sys"
  , Stmt.moduleLoad "os.path"
  , Stmt.ifElse [Stmt.shellCall "pip install -q pyomo", Stmt.assertCall] []
  , Stmt.ifElse
      [ Stmt.ifElse
          [Stmt.shellCall "apt-get install -y -qq glpk-utils"]
          [Stmt.tryExcept
            [Stmt.shellCall "conda install -c conda-forge glpk"]
            [Stmt.passStmt]] ]
      [] ]

/-- The complete script of section 3.5, statement by statement. -/
def completeScript : List Stmt :=
  [ Stmt.moduleLoad "pyomo.environ"
  , Stmt.modelInit
  , Stmt.dataAssign "pB" pB
  , Stmt.dataAssign "pC" pC
  , Stmt.dataAssign "rB" rB
  , Stmt.dataAssign "rC" rC
  , Stmt.dataAssign "dB" dB
  , Stmt.dataAssign "dC" dC
  , Stmt.dataAssign "T" T
  , Stmt.varDeclStmt xBComp
  , Stmt.varDeclStmt xCComp
  , Stmt.objectiveStmt costComp
  , Stmt.constraintStmt cnstr1Comp
  , Stmt.solveCall "glpk"
  , Stmt.forLoop [Stmt.printCall "info"]
  , Stmt.printCall "Optimal solution value: z ="
  , Stmt.printCall "Decision variables:"
  , Stmt.printCall "Production of bands:"
  , Stmt.printCall "Production of coils:"
  ]

/-- Phase of a top-level statement of the complete script: setup
(imports and the creation of the empty `ConcreteModel` object), then the
spec's four steps — data definition, model construction (the four
component declarations), solve delegation, result reporting. -/
def phaseOf : Stmt → Nat
  | .moduleLoad _ => 0
  | .modelInit => 0
  | .dataAssign _ _ => 1
  | .varDeclStmt _ => 2
  | .objectiveStmt _ => 2
  | .constraintStmt _ => 2
  | .solveCall _ => 3
  | .forLoop _ => 4
  | .printCall _ => 4
  | _ => 0

/-- Is a list of phase numbers non-decreasing? -/
def phasesOrdered : List Nat → Bool
  | [] => true
  | [_] => true
  | a :: b :: rest => Nat.ble a b && phasesOrdered (b :: rest)

/-- The `ConcreteModel` accumulated by running a list of top-level
statements, starting from the empty model created by
`model = ConcreteModel()`. -/
def buildModel (stmts : List Stmt) : PyomoModel :=
  stmts.foldl
    (fun m s =>
      match s with
      | .varDeclStmt v => { m with vars := m.vars ++ [v] }
      | .objectiveStmt o => { m with objectives := m.objectives ++ [o] }
      | .constraintStmt c => { m with constraints := m.constraints ++ [c] }
      | _ => m)
    ⟨[], [], []⟩

/-! ## The reporting phase as a trace (for the status-handling claim)

`sol = SolverFactory('glpk').solve(model, tee=True)` returns a results
object; `sol['Solver']` is its list of solver-status records. The
reporting code is

    for info in sol['Solver']:
        print(info)
    print("Optimal solution value: z =", model.cost())
    print("Decision variables:")
    print("\tProduction of bands:", model.xB())
    print("\tProduction of coils:", model.xC())

so the trace of observable actions is a status print per record followed,
unconditionally, by the three reads of solution values. -/

/-- Status of one record under `sol['Solver']` (Pyomo's solver status). -/
inductive SolverStatus where
  | ok
  | warning
  | error
  | aborted
  | unknown
deriving DecidableEq

/-- The results object returned by `SolverFactory('glpk').solve`. -/
structure SolverResults where
  solverInfos : List SolverStatus

/-- An observable action of the reporting code. -/
inductive Action where
  | printStatusInfo (s : SolverStatus)
  | readCost
  | readXB
  | readXC
deriving DecidableEq

/-- Is an action a read of a solution value (`model.cost()`,
`model.xB()` or `model.xC()`)? -/
def Action.isRead : Action → Bool
  | .printStatusInfo _ => false
  | _ => true

/-- The trace of the reporting code on a given solver result: the status
loop's prints, then the three solution-value reads, whatever the
statuses were. -/
def reportPhase (sol : SolverResults) : List Action :=
  sol.solverInfos.map Action.printStatusInfo
    ++ [Action.readCost, Action.readXB, Action.readXC]

/-- The read actions of a trace, in order. -/
def readsOf (trace : List Action) : List Action :=
  trace.filter Action.isRead

/-! ## Helper lemmas about the instance -/

/-- Point `(6000, 1400)` is feasible for the notebook's data. -/
lemma feasible_opt : Feasible dB dC T 6000 1400 := by
  unfold Feasible cnstr1 dB dC T rB rC
  norm_num

/-- Point `(6000, 1400)` is optimal for the notebook's data. -/
lemma isOptimal_opt : IsOptimal dB dC T 6000 1400 := by
  refine ⟨feasible_opt, ?_⟩
  intro x y hf
  obtain ⟨hx0, hxd, hy0, hyd, hc⟩ := hf
  unfold cnstr1 rB rC T at hc
  unfold dB at hxd
  unfold cost pB pC
  linarith

/-- The optimum of the notebook's instance is unique: any optimal point
is `(6000, 1400)`. -/
lemma optimal_unique (x y : ℚ) (h : IsOptimal dB dC T x y) :
    x = 6000 ∧ y = 1400 := by
  obtain ⟨⟨hx0, hxd, hy0, hyd, hc⟩, hopt⟩ := h
  have hge : cost 6000 1400 ≤ cost x y := hopt 6000 1400 feasible_opt
  unfold cnstr1 rB rC T at hc
  unfold dB at hxd
  unfold cost pB pC at hge
  constructor <;> linarith

/-- With the band demand bound set to `0`, the point `(0, 4000)` is
optimal: no bands can be produced, and coil production is limited by the
demand bound `dC = 4000` (the capacity alone would allow `140 * 40 =
5600`). -/
lemma isOptimal_dBzero : IsOptimal 0 dC T 0 4000 := by
  constructor
  · unfold Feasible cnstr1 dC T rB rC
    norm_num
  · intro x y hf
    obtain ⟨hx0, hxd, hy0, hyd, hc⟩ := hf
    unfold dC at hyd
    unfold cost pB pC
    linarith

/-! ## The claims -/

/-- C1: for the fixed data `pB=25, pC=30, rB=200, rC=140, dB=6000,
dC=4000, T=40`, the linear program of the notebook has the deterministic
optimum `xB = 6000`, `xC = 1400` with objective value `z = 192000`: the
point `(6000, 1400)` is optimal, its objective value is `192000`, and it
is the only optimal point, so these are the values an exact solve-and-report
run yields. -/
theorem steel_C1 :
    IsOptimal dB dC T 6000 1400 ∧ cost 6000 1400 = 192000 ∧
      ∀ x y, IsOptimal dB dC T x y → x = 6000 ∧ y = 1400 := by
  refine ⟨isOptimal_opt, ?_, optimal_unique⟩
  unfold cost pB pC
  norm_num

/-- C2 counterexample: reading the solution values is not conditional on
the status inspection. On a run whose sole solver-status record is
`error` (solver non-success), the reporting code still reads
`model.cost()`, `model.xB()` and `model.xC()`, and the sequence of reads
is identical to that of an `ok` run. -/
theorem steel_C2_cex :
    Action.readCost ∈ reportPhase ⟨[SolverStatus.error]⟩ ∧
      Action.readXB ∈ reportPhase ⟨[SolverStatus.error]⟩ ∧
      Action.readXC ∈ reportPhase ⟨[SolverStatus.error]⟩ ∧
      readsOf (reportPhase ⟨[SolverStatus.error]⟩) =
        readsOf (reportPhase ⟨[SolverStatus.ok]⟩) := by
  decide

/-- C2 (amended): on every run the solver-status records are printed
before any solution value is read, but the three reads of
`model.cost()`, `model.xB()`, `model.xC()` then happen unconditionally —
they are not gated on the inspected status. -/
theorem steel_C2 (sol : SolverResults) :
    (∃ pre, reportPhase sol =
        pre ++ [Action.readCost, Action.readXB, Action.readXC] ∧
        ∀ a ∈ pre, a.isRead = false) ∧
      readsOf (reportPhase sol) = [Action.readCost, Action.readXB, Action.readXC] := by
  constructor
  · refine ⟨sol.solverInfos.map Action.printStatusInfo, rfl, ?_⟩
    intro a ha
    obtain ⟨s, _, rfl⟩ := List.mem_map.mp ha
    rfl
  · unfold reportPhase readsOf
    rw [List.filter_append]
    simp [Action.isRead, List.filter_map]

/-- C3: at any optimum the program can report, the capacity constraint
`xB/rB + xC/rC ≤ T` holds. -/
theorem steel_C3 (x y : ℚ) (h : IsOptimal dB dC T x y) :
    x / rB + y / rC ≤ T := by
  have hc := h.1.2.2.2.2
  unfold cnstr1 at hc
  rw [one_div_mul_eq_div, one_div_mul_eq_div] at hc
  exact hc

/-- C3 witness: at the reported optimum `(6000, 1400)` the capacity
constraint holds. -/
theorem steel_C3_witness :
    IsOptimal dB dC T 6000 1400 ∧ (6000 : ℚ) / rB + 1400 / rC ≤ T :=
  ⟨isOptimal_opt, steel_C3 6000 1400 isOptimal_opt⟩

/-- C4: at any optimum the program can report, each decision variable
lies within its declared bounds: `0 ≤ xB ≤ dB` and `0 ≤ xC ≤ dC`. -/
theorem steel_C4 (x y : ℚ) (h : IsOptimal dB dC T x y) :
    0 ≤ x ∧ x ≤ dB ∧ 0 ≤ y ∧ y ≤ dC :=
  ⟨h.1.1, h.1.2.1, h.1.2.2.1, h.1.2.2.2.1⟩

/-- C4 witness: at the reported optimum `(6000, 1400)` both variables
are within their bounds. -/
theorem steel_C4_witness :
    IsOptimal dB dC T 6000 1400 ∧
      ((0 : ℚ) ≤ 6000 ∧ (6000 : ℚ) ≤ dB ∧ (0 : ℚ) ≤ 1400 ∧ (1400 : ℚ) ≤ dC) :=
  ⟨isOptimal_opt, steel_C4 6000 1400 isOptimal_opt⟩

/-- C5: the optimal objective value is monotone non-decreasing in the
capacity `T`: with the other data fixed, if `t₁ ≤ t₂`, any optimum of
the model built with `t₁` has objective value at most that of any
optimum of the model built with `t₂`. -/
theorem steel_C5 (t₁ t₂ x₁ y₁ x₂ y₂ : ℚ) (hT : t₁ ≤ t₂)
    (h₁ : IsOptimal dB dC t₁ x₁ y₁) (h₂ : IsOptimal dB dC t₂ x₂ y₂) :
    cost x₁ y₁ ≤ cost x₂ y₂ := by
  apply h₂.2
  obtain ⟨hx0, hxd, hy0, hyd, hc⟩ := h₁.1
  exact ⟨hx0, hxd, hy0, hyd, le_trans hc hT⟩

/-- C5 witness: instantiated at `t₁ = t₂ = T` with the optimum
`(6000, 1400)` on both sides. -/
theorem steel_C5_witness :
    T ≤ T ∧ IsOptimal dB dC T 6000 1400 ∧ cost 6000 1400 ≤ cost 6000 1400 :=
  ⟨le_rfl, isOptimal_opt,
    steel_C5 T T 6000 1400 6000 1400 le_rfl isOptimal_opt isOptimal_opt⟩

/-- C6: if the model is built with `dB = 0` (other data unchanged),
every optimal solution has `xB = 0`. -/
theorem steel_C6 (x y : ℚ) (h : IsOptimal 0 dC T x y) : x = 0 :=
  le_antisymm h.1.2.1 h.1.1

/-- C6 witness: `(0, 4000)` is optimal for the model with `dB = 0`, and
its band production is `0`. -/
theorem steel_C6_witness :
    IsOptimal 0 dC T 0 4000 ∧ (0 : ℚ) = 0 :=
  ⟨isOptimal_dBzero, steel_C6 0 4000 isOptimal_dBzero⟩

/-- C7 counterexample: the script is not free of branching and looping.
The complete script's result reporting contains the `for info in
sol['Solver']` loop, and the installation cell contains `if`/`else` (and
`try`/`except`) branches. -/
theorem steel_C7_cex :
    listHasLoop completeScript = true ∧ listHasBranch installCell = true := by
  constructor <;> rfl

/-- C7 (amended): the four steps execute once each and in order — every
data definition precedes every model-component declaration, which
precede the single solve invocation (no retry: exactly one solve
statement in the script), which precedes all result reporting — the
complete script itself contains no branch, and it keeps no state beyond
its own local variables (no statement of it mutates anything beyond the
run's names and the console) — but the result-reporting step loops over
the solver-status records with a `for` loop, and the installation cell
branches on which software is already installed. -/
theorem steel_C7 :
    listSolveCount completeScript = 1 ∧
      phasesOrdered (completeScript.map phaseOf) = true ∧
      listHasBranch completeScript = false ∧
      listTouchesExternalState completeScript = false ∧
      listHasLoop completeScript = true ∧
      listHasBranch installCell = true := by
  refine ⟨rfl, rfl, rfl, rfl, rfl, rfl⟩

/-- C8: the model the script builds consists of exactly two bounded
continuous decision variables, one linear objective with sense
`maximize`, and one linear `≤` constraint — and running the complete
script's statements adds no component beyond these. -/
theorem steel_C8 :
    buildModel completeScript = builtModel ∧
      builtModel.vars.length = 2 ∧
      (∀ v ∈ builtModel.vars, v.domain.continuous = true ∧ v.lb ≤ v.ub) ∧
      builtModel.objectives.length = 1 ∧
      (∀ o ∈ builtModel.objectives, o.sense = Sense.maximize) ∧
      builtModel.constraints.length = 1 ∧
      (∀ c ∈ builtModel.constraints, c.rel = Rel.le) := by
  refine ⟨rfl, rfl, ?_, rfl, ?_, rfl, ?_⟩ <;> decide

/-- C9: the constraint as coded, `1/rB*xB + 1/rC*xC <= T` with
`rB = 200`, `rC = 140`, `T = 40`, is equivalent over the reals to the
spec's form `xB/rB + xC/rC ≤ T`. -/
theorem steel_C9 :
    ∀ x y : ℝ, cnstrCodedReal x y ↔ cnstrSpecFormReal x y := by
  intro x y
  unfold cnstrCodedReal cnstrSpecFormReal
  rw [one_div_mul_eq_div, one_div_mul_eq_div]

/-- C10: at the (unique) optimum of the notebook's instance, the
capacity constraint is tight, `1/rB*xB + 1/rC*xC = T` (that is,
`6000/200 + 1400/140 = 40`), the band demand bound is tight,
`xB = dB = 6000`, and the coil demand bound is slack,
`xC = 1400 < dC = 4000`. -/
theorem steel_C10 (x y : ℚ) (h : IsOptimal dB dC T x y) :
    1 / rB * x + 1 / rC * y = T ∧ x = dB ∧ y < dC := by
  obtain ⟨hx, hy⟩ := optimal_unique x y h
  subst hx; subst hy
  refine ⟨?_, ?_, ?_⟩ <;> simp only [rB, rC, T, dB, dC] <;> norm_num

/-- C10 witness: instantiated at the optimum `(6000, 1400)`. -/
theorem steel_C10_witness :
    IsOptimal dB dC T 6000 1400 ∧
      (1 / rB * 6000 + 1 / rC * 1400 = T ∧ (6000 : ℚ) = dB ∧ (1400 : ℚ) < dC) :=
  ⟨isOptimal_opt, steel_C10 6000 1400 isOptimal_opt⟩

end SteelPlanning
